import Mathlib

/-!
Verification of the Unplanned Reoperation Risk Prediction System
(src/app.py): the schema registry `VARIABLE_CONFIG`, the input form that
assembles the feature record, and the prediction / explanation pipeline
behind the "Predict Risk" button.

The trained classifier (`best_model.pkl`, accessed through
`model.predict_proba`) and the SHAP explainer (`shap.TreeExplainer`) are
external artifacts; they are modelled as abstract parameters.  Their
probabilities and contributions are modelled as rationals.  A small event
trace records when the classifier artifact is loaded, when the classifier
is invoked, and when an explainer is constructed or invoked, so that
"loaded once", "never retried" and "constructed per call" become provable
statements about traces.
-/

/-- A field of the input schema: name, inclusive integer bounds, and a
human-readable label — one entry of `VARIABLE_CONFIG` in src/app.py. -/
structure FieldSpec where
  name : String
  min : Int
  max : Int
  label : String
deriving DecidableEq

/-- The schema registry, transcribed from `VARIABLE_CONFIG`
(src/app.py lines 12-68), in source order.  Python dicts preserve
insertion order, so this list order is the order the form renders and the
order the feature columns are assembled in. -/
def VARIABLE_CONFIG : List FieldSpec :=
  [⟨"Sex", 0, 1, "Patient gender (0=Female, 1=Male)"⟩,
   ⟨"ASA scores", 0, 5, "ASA physical status classification"⟩,
   ⟨"tumor location", 1, 4, "Tumor location code (1-4)"⟩,
   ⟨"Benign or malignant", 0, 1, "Tumor nature (0=Benign, 1=Malignant)"⟩,
   ⟨"Admitted to NICU", 0, 1, "NICU admission status"⟩,
   ⟨"Duration of surgery", 0, 1, "Surgery duration category"⟩,
   ⟨"diabetes", 0, 1, "Diabetes mellitus status"⟩,
   ⟨"CHF", 0, 1, "Congestive heart failure"⟩,
   ⟨"Functional dependencies", 0, 1, "Functional dependencies"⟩,
   ⟨"mFI-5", 0, 5, "Modified Frailty Index"⟩,
   ⟨"Type of tumor", 1, 5, "Tumor type code (1-5)"⟩]

/-- The spec's `fieldSpecs()` accessor: the registry table, in its declared
order.  It is a constant, so every call returns the same sequence. -/
def fieldSpecs : List FieldSpec := VARIABLE_CONFIG

/-- The registry field names in declared order (the column order of the
single-row dataframe built from the form inputs). -/
def registryNames : List String := VARIABLE_CONFIG.map (fun f => f.name)

/-- Registry lookup by field name. -/
def lookupField (n : String) : Option FieldSpec :=
  VARIABLE_CONFIG.find? (fun f => f.name == n)

/-- Validation failure kinds of the spec's schema registry (§4.1). -/
inductive ValidationError where
  | OutOfRange
  | UnknownField
deriving DecidableEq

/-- Modelled from the spec: `validate(name, value)` of §4.1.  src/app.py has
no standalone validate function — the inclusive bounds are enforced by each
`st.number_input` widget via `min_value=config["min"]` and
`max_value=config["max"]` (lines 80-87), with the bounds taken from
`VARIABLE_CONFIG`; the `Result`/error shape here follows the spec's words. -/
def validate (n : String) (v : Int) : Except ValidationError Int :=
  match lookupField n with
  | none => .error .UnknownField
  | some f => if v < f.min ∨ v > f.max then .error .OutOfRange else .ok v

/-- An input record: an insertion-ordered association of field names to
integer values, like the Python dict `inputs`. -/
abbrev InputRecord := List (String × Int)

/-- The dynamic input loop (src/app.py lines 76-87): iterate
`VARIABLE_CONFIG` in order and collect one value per field.  `choose`
stands for the value each widget holds when the button is pressed. -/
def assembleInputs (choose : FieldSpec → Int) : InputRecord :=
  VARIABLE_CONFIG.map (fun f => (f.name, choose f))

/-- The record the form holds before any user edit: every widget starts at
`value=config["min"]` (src/app.py line 84). -/
def defaultInputs : InputRecord := assembleInputs (fun f => f.min)

/-- The single-row feature vector handed to the classifier: the values of
`pd.DataFrame([inputs])` in column (insertion) order (line 93). -/
def featureVector (r : InputRecord) : List Int := r.map Prod.snd

/-- Abstraction of `model.predict_proba(input_df)[0][1]`: the loaded
classifier maps a single-row feature vector to the positive-class
probability, or raises (modelled as `Except.error` with the message). -/
abbrev Classifier := List Int → Except String ℚ

/-- Abstraction of a `shap.TreeExplainer` instance: per-feature signed
contributions for a single row (`explainer.shap_values(input_df)`, row 0)
and the baseline `explainer.expected_value`. -/
structure Explainer where
  shapValues : List Int → Except String (List ℚ)
  expectedValue : ℚ

/-- The probability threshold `0.5` of src/app.py line 97, as an exact
rational. -/
def half : ℚ := ⟨1, 2, by decide, by decide⟩

/-- `risk_level = "High Risk" if proba > 0.5 else "Low Risk"`
(src/app.py line 97): strict inequality governs High. -/
def riskLevel (proba : ℚ) : String :=
  if proba > half then "High Risk" else "Low Risk"

/-- Insert a (field, contribution) pair into a list already ranked by
descending magnitude. -/
def insertByMag (x : String × ℚ) : List (String × ℚ) → List (String × ℚ)
  | [] => [x]
  | y :: ys => if |x.2| ≥ |y.2| then x :: y :: ys else y :: insertByMag x ys

/-- Modelled from the spec: §4.2 step 5 derives `globalImportance` by
ranking features by the magnitude of their contribution, descending.  In
src/app.py this ranking happens inside `shap.summary_plot(...,
plot_type="bar")` (line 114), an external plotting call. -/
def rankByMagnitude : List (String × ℚ) → List (String × ℚ)
  | [] => []
  | x :: xs => insertByMag x (rankByMagnitude xs)

/-- The spec's `PredictionResult` (§3), as produced by the handler:
probability (line 96), risk label (line 97), ranked global importance
(line 114), per-feature local contributions in registry order (line 118),
and the explainer's baseline (line 119). -/
structure PredictionResult where
  probability : ℚ
  riskLabel : String
  globalImportance : List (String × ℚ)
  localContribution : List (String × ℚ)
  baseline : ℚ
deriving DecidableEq

/-- Pipeline failure kinds (spec §4.2/§7): a record that does not carry
exactly the registry fields, or an error raised by the classifier or the
explainer. -/
inductive PipelineError where
  | IncompleteInput
  | InferenceFailure (msg : String)
deriving DecidableEq

/-- Modelled from the spec: the §4.2 precondition that the record contain
exactly the registry's fields (in the registry's column order, which is the
order the form assembles and the classifier artifact expects).  In
src/app.py the form always builds a complete record, and a schema mismatch
would instead surface as an exception from the opaque classifier. -/
def completeRecord (r : InputRecord) : Bool :=
  decide (r.map Prod.fst = registryNames)

/-- The trace events of one process run: `joblib.load` of the model
(line 9), `model.predict_proba` (line 96), `shap.TreeExplainer(model)`
(line 110), and `explainer.shap_values` (line 111). -/
inductive Event where
  | loadClassifier
  | invokeClassifier
  | constructExplainer
  | invokeExplainer
deriving DecidableEq

/-- The body of the "Predict Risk" handler before the catch-all
(src/app.py lines 91-124), with the spec's `IncompleteInput` guard in
front: build the single-row dataframe (line 93), invoke the classifier
(line 96), derive the risk label (line 97), construct a `TreeExplainer`
from the loaded model (line 110), invoke it (line 111), and package the
result.  `mkE` stands for `shap.TreeExplainer(model)`; the returned list
records which external calls happened, in order. -/
def predictBody (c : Classifier) (mkE : Unit → Explainer) (r : InputRecord) :
    Except PipelineError PredictionResult × List Event :=
  if completeRecord r then
    match c (featureVector r) with
    | .error m => (.error (.InferenceFailure m), [.invokeClassifier])
    | .ok proba =>
      match (mkE ()).shapValues (featureVector r) with
      | .error m =>
          (.error (.InferenceFailure m),
           [.invokeClassifier, .constructExplainer, .invokeExplainer])
      | .ok contribs =>
          (.ok ⟨proba, riskLevel proba,
                rankByMagnitude (registryNames.zip contribs),
                registryNames.zip contribs, (mkE ()).expectedValue⟩,
           [.invokeClassifier, .constructExplainer, .invokeExplainer])
  else (.error .IncompleteInput, [])

/-- The message of a pipeline failure, as interpolated into
`st.error(f"Error: {str(e)}")` (line 127). -/
def errMsg : PipelineError → String
  | .IncompleteInput => "IncompleteInput"
  | .InferenceFailure m => m

/-- What one button press leaves on the page: either the prediction result
or an inline error message. -/
inductive Outcome where
  | shown (res : PredictionResult)
  | errorShown (msg : String)
deriving DecidableEq

/-- One full "Predict Risk" invocation, `try`/`except` included
(src/app.py lines 90-127): every error from the body is caught and turned
into the inline message `Error: ...`; nothing is retried and nothing
escapes to the process level. -/
def handlerRun (c : Classifier) (mkE : Unit → Explainer) (r : InputRecord) :
    Outcome × List Event :=
  match predictBody c mkE r with
  | (.ok res, evs) => (.shown res, evs)
  | (.error e, evs) => (.errorShown ("Error: " ++ errMsg e), evs)

/-- A whole process run: `model = joblib.load(...)` once at module load
(src/app.py lines 8-9), then one handler invocation per button press.
Returns the page outcome of each press and the concatenated event trace. -/
def runProcess (c : Classifier) (mkE : Unit → Explainer)
    (rs : List InputRecord) : List Outcome × List Event :=
  (rs.map (fun r => (handlerRun c mkE r).1),
   Event.loadClassifier :: rs.flatMap (fun r => (handlerRun c mkE r).2))

instance {e a : Type} [DecidableEq e] [DecidableEq a] : DecidableEq (Except e a)
  | .ok x, .ok y =>
    if h : x = y then .isTrue (by rw [h]) else .isFalse (by simp [h])
  | .ok _, .error _ => .isFalse (by simp)
  | .error _, .ok _ => .isFalse (by simp)
  | .error x, .error y =>
    if h : x = y then .isTrue (by rw [h]) else .isFalse (by simp [h])

/-- A concrete classifier that always returns probability 7/10 — stands in
for a loaded `best_model.pkl` on inputs it accepts. -/
def cHigh : Classifier := fun _ => Except.ok ⟨7, 10, by decide, by decide⟩

/-- A concrete classifier whose inference call always raises. -/
def cFail : Classifier := fun _ => Except.error "boom"

/-- A concrete explainer constructor: zero contribution per feature and a
zero baseline. -/
def mkE0 : Unit → Explainer :=
  fun _ => ⟨fun fv => Except.ok (fv.map (fun _ => 0)), 0⟩

/-- The minimum-valued record with the registry's "CHF" field left out. -/
def recMissingCHF : InputRecord :=
  (VARIABLE_CONFIG.filter (fun f => !(f.name == "CHF"))).map
    (fun f => (f.name, f.min))

/-- The result `predictBody cHigh mkE0 defaultInputs` evaluates to. -/
def res0 : PredictionResult :=
  ⟨⟨7, 10, by decide, by decide⟩, "High Risk",
   rankByMagnitude (registryNames.zip (List.replicate 11 0)),
   registryNames.zip (List.replicate 11 0), 0⟩

theorem half_eq_one_div_two : half = 1/2 := by
  rw [half, Rat.mk'_eq_divInt, Rat.divInt_eq_div]
  norm_num

theorem riskLevel_high_iff (p : ℚ) : riskLevel p = "High Risk" ↔ p > 1/2 := by
  rw [← half_eq_one_div_two]
  unfold riskLevel
  split <;> simp_all

theorem riskLevel_at_half (p : ℚ) (h : p = 1/2) : riskLevel p = "Low Risk" := by
  unfold riskLevel
  rw [h, ← half_eq_one_div_two]
  simp

/-- Exhaustive description of one handler-body run: the four paths of
src/app.py lines 91-124 (incomplete record, classifier raise, explainer
raise, success), each with its result and its external-call trace. -/
theorem predictBody_cases (c : Classifier) (mkE : Unit → Explainer)
    (r : InputRecord) :
    (completeRecord r = false ∧
       predictBody c mkE r = (.error .IncompleteInput, [])) ∨
    (∃ m, completeRecord r = true ∧ c (featureVector r) = .error m ∧
       predictBody c mkE r =
         (.error (.InferenceFailure m), [.invokeClassifier])) ∨
    (∃ proba m, completeRecord r = true ∧ c (featureVector r) = .ok proba ∧
       (mkE ()).shapValues (featureVector r) = .error m ∧
       predictBody c mkE r =
         (.error (.InferenceFailure m),
          [.invokeClassifier, .constructExplainer, .invokeExplainer])) ∨
    (∃ proba contribs, completeRecord r = true ∧
       c (featureVector r) = .ok proba ∧
       (mkE ()).shapValues (featureVector r) = .ok contribs ∧
       predictBody c mkE r =
         (.ok ⟨proba, riskLevel proba,
               rankByMagnitude (registryNames.zip contribs),
               registryNames.zip contribs, (mkE ()).expectedValue⟩,
          [.invokeClassifier, .constructExplainer, .invokeExplainer])) := by
  cases hcomp : completeRecord r with
  | false => exact Or.inl ⟨rfl, by simp [predictBody, hcomp]⟩
  | true =>
    cases hc : c (featureVector r) with
    | error m =>
      exact Or.inr (Or.inl ⟨m, rfl, rfl, by simp [predictBody, hcomp, hc]⟩)
    | ok proba =>
      cases hs : (mkE ()).shapValues (featureVector r) with
      | error m =>
        exact Or.inr (Or.inr (Or.inl
          ⟨proba, m, rfl, rfl, rfl, by simp [predictBody, hcomp, hc, hs]⟩))
      | ok contribs =>
        exact Or.inr (Or.inr (Or.inr
          ⟨proba, contribs, rfl, rfl, rfl, by simp [predictBody, hcomp, hc, hs]⟩))

theorem handlerRun_snd (c : Classifier) (mkE : Unit → Explainer)
    (r : InputRecord) : (handlerRun c mkE r).2 = (predictBody c mkE r).2 := by
  unfold handlerRun
  rcases h : predictBody c mkE r with ⟨res | e, evs⟩ <;> simp

theorem handlerRun_of_error (c : Classifier) (mkE : Unit → Explainer)
    (r : InputRecord) (e : PipelineError) (evs : List Event)
    (h : predictBody c mkE r = (.error e, evs)) :
    (handlerRun c mkE r).1 = .errorShown ("Error: " ++ errMsg e) := by
  unfold handlerRun
  rw [h]

theorem handlerRun_events_cases (c : Classifier) (mkE : Unit → Explainer)
    (r : InputRecord) :
    (handlerRun c mkE r).2 = [] ∨
    (handlerRun c mkE r).2 = [Event.invokeClassifier] ∨
    (handlerRun c mkE r).2 =
      [Event.invokeClassifier, Event.constructExplainer,
       Event.invokeExplainer] := by
  rw [handlerRun_snd]
  rcases predictBody_cases c mkE r with ⟨-, h⟩ | ⟨m, -, -, h⟩ |
    ⟨p, m, -, -, -, h⟩ | ⟨p, cs, -, -, -, h⟩ <;> rw [h]
  · exact Or.inl rfl
  · exact Or.inr (Or.inl rfl)
  · exact Or.inr (Or.inr rfl)
  · exact Or.inr (Or.inr rfl)

theorem flatMap_no_load (c : Classifier) (mkE : Unit → Explainer)
    (rs : List InputRecord) :
    (rs.flatMap (fun r => (handlerRun c mkE r).2)).count
      Event.loadClassifier = 0 := by
  induction rs with
  | nil => rfl
  | cons r t ih =>
    rw [List.flatMap_cons, List.count_append, ih]
    rcases handlerRun_events_cases c mkE r with h | h | h <;> rw [h] <;> rfl

theorem pair_list_eq_zip (l : List (String × Int)) :
    (l.map Prod.fst).zip (l.map Prod.snd) = l := by
  induction l with
  | nil => rfl
  | cons a t ih => simp [ih]

/-- C1: for every record the pipeline accepts, the result is labelled
"High Risk" exactly when the positive-class probability is strictly
greater than 0.5, and a probability of exactly 0.5 is labelled
"Low Risk" (src/app.py line 97). -/
theorem c1_risk_threshold (c : Classifier) (mkE : Unit → Explainer)
    (r : InputRecord) (res : PredictionResult) (evs : List Event)
    (h : predictBody c mkE r = (Except.ok res, evs)) :
    (res.riskLabel = "High Risk" ↔ res.probability > 1/2) ∧
    (res.probability = 1/2 → res.riskLabel = "Low Risk") := by
  rcases predictBody_cases c mkE r with ⟨-, h2⟩ | ⟨m, -, -, h2⟩ |
    ⟨p, m, -, -, -, h2⟩ | ⟨p, cs, -, -, -, h2⟩
  · rw [h2] at h; exact absurd h (by simp)
  · rw [h2] at h; exact absurd h (by simp)
  · rw [h2] at h; exact absurd h (by simp)
  · rw [h2] at h
    have hres := congrArg Prod.fst h
    simp only [Except.ok.injEq] at hres
    rw [← hres]
    exact ⟨riskLevel_high_iff p, riskLevel_at_half p⟩

/-- C1 witness: a concrete accepted record whose probability is 7/10. -/
theorem c1_risk_threshold_witness :
    (res0.riskLabel = "High Risk" ↔ res0.probability > 1/2) ∧
    (res0.probability = 1/2 → res0.riskLabel = "Low Risk") :=
  c1_risk_threshold cHigh mkE0 defaultInputs res0
    [Event.invokeClassifier, Event.constructExplainer, Event.invokeExplainer]
    (by decide)

/-- C2: `fieldSpecs()` returns exactly the eleven fields of the registry,
with these names and inclusive integer bounds, in this fixed order; being
a constant, it returns the same sequence on every call. -/
theorem c2_registry_table :
    fieldSpecs.map (fun f => (f.name, f.min, f.max)) =
      [("Sex", 0, 1), ("ASA scores", 0, 5), ("tumor location", 1, 4),
       ("Benign or malignant", 0, 1), ("Admitted to NICU", 0, 1),
       ("Duration of surgery", 0, 1), ("diabetes", 0, 1), ("CHF", 0, 1),
       ("Functional dependencies", 0, 1), ("mFI-5", 0, 5),
       ("Type of tumor", 1, 5)] ∧
    fieldSpecs.length = 11 := by decide

/-- C3: `validate` fails with `OutOfRange` exactly when the value is below
the field's min or above its max, fails with `UnknownField` exactly when
the name is not in the registry, succeeds otherwise; in particular
"ASA scores" with value 7 is `OutOfRange`. -/
theorem c3_validate_check (n : String) (v : Int) :
    (validate n v = Except.error ValidationError.UnknownField ↔
      lookupField n = none) ∧
    (validate n v = Except.error ValidationError.OutOfRange ↔
      ∃ f, lookupField n = some f ∧ (v < f.min ∨ v > f.max)) ∧
    (validate n v = Except.ok v ↔
      ∃ f, lookupField n = some f ∧ f.min ≤ v ∧ v ≤ f.max) ∧
    validate "ASA scores" 7 = Except.error ValidationError.OutOfRange := by
  refine ⟨?_, ?_, ?_, by decide⟩
  · unfold validate
    cases hl : lookupField n with
    | none => simp
    | some f =>
      by_cases hb : v < f.min ∨ v > f.max <;> simp [hb]
  · unfold validate
    cases hl : lookupField n with
    | none => simp
    | some f =>
      by_cases hb : v < f.min ∨ v > f.max <;> simp [hb]
  · unfold validate
    cases hl : lookupField n with
    | none => simp
    | some f =>
      by_cases hb : v < f.min ∨ v > f.max <;> simp [hb] <;> omega

/-- C3 witness: "ASA scores" with value 7 is rejected as out of range. -/
theorem c3_validate_check_witness :
    validate "ASA scores" 7 = Except.error ValidationError.OutOfRange :=
  (c3_validate_check "ASA scores" 7).2.2.2

/-- C4: a record that does not carry exactly the registry's fields is
rejected with `IncompleteInput` whatever the classifier is, with an empty
external-call trace — so no inference is attempted. -/
theorem c4_incomplete_rejected (c : Classifier) (mkE : Unit → Explainer)
    (r : InputRecord) (h : completeRecord r = false) :
    predictBody c mkE r = (Except.error PipelineError.IncompleteInput, []) := by
  simp [predictBody, h]

/-- C4 witness: a record missing the "CHF" field is rejected. -/
theorem c4_incomplete_rejected_witness :
    predictBody cHigh mkE0 recMissingCHF =
      (Except.error PipelineError.IncompleteInput, []) :=
  c4_incomplete_rejected cHigh mkE0 recMissingCHF (by decide)

/-- C5: the form assembles the record by iterating the registry in order,
so the feature vector handed to the classifier lists the chosen values in
exactly the order of `fieldSpecs()`; moreover any record the pipeline
accepts is its registry-ordered names zipped with its feature vector. -/
theorem c5_feature_order (choose : FieldSpec → Int) (r : InputRecord) :
    (assembleInputs choose).map Prod.fst = fieldSpecs.map (fun f => f.name) ∧
    featureVector (assembleInputs choose) = fieldSpecs.map choose ∧
    (completeRecord r = true →
      r = (fieldSpecs.map (fun f => f.name)).zip (featureVector r)) := by
  refine ⟨?_, ?_, ?_⟩
  · simp [assembleInputs, fieldSpecs, List.map_map]
  · simp [featureVector, assembleInputs, fieldSpecs, List.map_map]
  · intro h
    have hr : r.map Prod.fst = registryNames := of_decide_eq_true h
    rw [show fieldSpecs.map (fun f => f.name) = registryNames from rfl, ← hr]
    exact (pair_list_eq_zip r).symm

/-- C5 witness: the default record is its registry-ordered names zipped
with its own feature vector. -/
theorem c5_feature_order_witness :
    defaultInputs =
      (fieldSpecs.map (fun f => f.name)).zip (featureVector defaultInputs) :=
  (c5_feature_order (fun f => f.min) defaultInputs).2.2 (by decide)

/-- C6: with a fixed classifier/explainer pair, two button presses on
identical copies of a record leave identical outcomes — the pipeline
threads no state between calls, so probability, risk label, global
importance, local contributions and baseline all coincide. -/
theorem c6_predict_deterministic (c : Classifier) (mkE : Unit → Explainer)
    (r : InputRecord) :
    (runProcess c mkE [r, r]).1 =
      [(handlerRun c mkE r).1, (handlerRun c mkE r).1] := rfl

/-- C6 witness: two presses with the concrete artifacts give the same
outcome twice. -/
theorem c6_predict_deterministic_witness :
    (runProcess cHigh mkE0 [defaultInputs, defaultInputs]).1 =
      [(handlerRun cHigh mkE0 defaultInputs).1,
       (handlerRun cHigh mkE0 defaultInputs).1] :=
  c6_predict_deterministic cHigh mkE0 defaultInputs

/-- C7: every registry field has min ≤ max, and no two registry fields
share a name. -/
theorem c7_registry_invariants :
    (∀ f ∈ VARIABLE_CONFIG, f.min ≤ f.max) ∧
    (VARIABLE_CONFIG.map (fun f => f.name)).Nodup := by decide

/-- C7 witness: the bound check instantiated at the "Sex" field. -/
theorem c7_registry_invariants_witness :
    (⟨"Sex", 0, 1, "Patient gender (0=Female, 1=Male)"⟩ : FieldSpec).min ≤
      (⟨"Sex", 0, 1, "Patient gender (0=Female, 1=Male)"⟩ : FieldSpec).max :=
  c7_registry_invariants.1
    ⟨"Sex", 0, 1, "Patient gender (0=Female, 1=Male)"⟩ (by decide)

/-- C8: each button press invokes the classifier at most once and the
explainer at most once (no automatic retry), and every pipeline error —
incomplete input, classifier raise, explainer raise — is caught by the
`try`/`except` and shown as an inline `Error: ...` message; in particular
a raising classifier yields the inline message with its own text. -/
theorem c8_errors_contained (c : Classifier) (mkE : Unit → Explainer)
    (r : InputRecord) :
    ((handlerRun c mkE r).2.count Event.invokeClassifier ≤ 1) ∧
    ((handlerRun c mkE r).2.count Event.invokeExplainer ≤ 1) ∧
    (∀ e evs, predictBody c mkE r = (Except.error e, evs) →
      (handlerRun c mkE r).1 = Outcome.errorShown ("Error: " ++ errMsg e)) ∧
    (∀ m, c (featureVector r) = Except.error m → completeRecord r = true →
      (handlerRun c mkE r).1 = Outcome.errorShown ("Error: " ++ m)) := by
  refine ⟨?_, ?_, ?_, ?_⟩
  · rcases handlerRun_events_cases c mkE r with h | h | h <;> rw [h] <;> decide
  · rcases handlerRun_events_cases c mkE r with h | h | h <;> rw [h] <;> decide
  · intro e evs h
    exact handlerRun_of_error c mkE r e evs h
  · intro m hc hcomp
    rcases predictBody_cases c mkE r with ⟨h1, -⟩ | ⟨m2, -, hc2, h2⟩ |
      ⟨p, m2, -, hc2, -, -⟩ | ⟨p, cs, -, hc2, -, -⟩
    · rw [hcomp] at h1; exact absurd h1 (by simp)
    · rw [hc] at hc2
      injection hc2 with hm
      rw [hm]
      exact handlerRun_of_error c mkE r _ _ h2
    · rw [hc] at hc2; exact absurd hc2 (by simp)
    · rw [hc] at hc2; exact absurd hc2 (by simp)

/-- C8 witness: a raising classifier produces the inline error message. -/
theorem c8_errors_contained_witness :
    (handlerRun cFail mkE0 defaultInputs).1 =
      Outcome.errorShown ("Error: " ++ "boom") :=
  (c8_errors_contained cFail mkE0 defaultInputs).2.2.2 "boom" rfl (by decide)

/-- C9 counterexample: the claim that the explainer is constructed exactly
once at process start is false — a process run with two button presses
constructs `shap.TreeExplainer(model)` twice (once per press, src/app.py
line 110), and a run with no press constructs it zero times. -/
theorem c9_explainer_per_call_counterexample :
    (runProcess cHigh mkE0 []).2.count Event.constructExplainer = 0 ∧
    (runProcess cHigh mkE0 [defaultInputs, defaultInputs]).2.count
      Event.constructExplainer = 2 ∧
    ¬ (runProcess cHigh mkE0 [defaultInputs, defaultInputs]).2.count
      Event.constructExplainer = 1 := by decide

/-- C9 (amended): the classifier artifact is loaded exactly once at
process start and never again, while an explainer is constructed inside
each predict invocation — at most once per press, and exactly once
whenever the classifier call succeeds on a complete record. -/
theorem c9_load_once_explainer_per_call (c : Classifier)
    (mkE : Unit → Explainer) (rs : List InputRecord) (r : InputRecord) :
    ((runProcess c mkE rs).2.count Event.loadClassifier = 1) ∧
    ((handlerRun c mkE r).2.count Event.constructExplainer ≤ 1) ∧
    (∀ p, completeRecord r = true → c (featureVector r) = Except.ok p →
      (handlerRun c mkE r).2.count Event.constructExplainer = 1) := by
  refine ⟨?_, ?_, ?_⟩
  · show (Event.loadClassifier ::
      rs.flatMap (fun x => (handlerRun c mkE x).2)).count
        Event.loadClassifier = 1
    rw [List.count_cons_self, flatMap_no_load]
  · rcases handlerRun_events_cases c mkE r with h | h | h <;> rw [h] <;> decide
  · intro p hcomp hc
    rcases predictBody_cases c mkE r with ⟨h1, -⟩ | ⟨m, -, hc2, -⟩ |
      ⟨p2, m, -, -, -, h2⟩ | ⟨p2, cs, -, -, -, h2⟩
    · rw [hcomp] at h1; exact absurd h1 (by simp)
    · rw [hc] at hc2; exact absurd hc2 (by simp)
    · rw [handlerRun_snd, h2]; rfl
    · rw [handlerRun_snd, h2]; rfl

/-- C9 (amended) witness: one concrete press constructs the explainer
exactly once. -/
theorem c9_load_once_explainer_per_call_witness :
    (handlerRun cHigh mkE0 defaultInputs).2.count
      Event.constructExplainer = 1 :=
  (c9_load_once_explainer_per_call cHigh mkE0 [defaultInputs]
    defaultInputs).2.2 ⟨7, 10, by decide, by decide⟩ (by decide) rfl

/-- C10: before any user edit every widget holds its field's minimum, so
the default record validates field-by-field, carries exactly the registry
fields, and is never rejected as `IncompleteInput` by the pipeline. -/
theorem c10_defaults_valid (q : String × Int) (hq : q ∈ defaultInputs)
    (c : Classifier) (mkE : Unit → Explainer) :
    validate q.1 q.2 = Except.ok q.2 ∧
    completeRecord defaultInputs = true ∧
    (predictBody c mkE defaultInputs).1 ≠
      Except.error PipelineError.IncompleteInput := by
  refine ⟨?_, by decide, ?_⟩
  · exact (by decide :
      ∀ q ∈ defaultInputs, validate q.1 q.2 = Except.ok q.2) q hq
  · rcases predictBody_cases c mkE defaultInputs with ⟨h1, -⟩ |
      ⟨m, -, -, h2⟩ | ⟨p, m, -, -, -, h2⟩ | ⟨p, cs, -, -, -, h2⟩
    · exact absurd h1 (by decide)
    · rw [h2]; simp
    · rw [h2]; simp
    · rw [h2]; simp

/-- C10 witness: the default record instantiated at its "Sex" entry. -/
theorem c10_defaults_valid_witness :
    validate "Sex" 0 = Except.ok 0 ∧
    completeRecord defaultInputs = true ∧
    (predictBody cHigh mkE0 defaultInputs).1 ≠
      Except.error PipelineError.IncompleteInput :=
  c10_defaults_valid ("Sex", 0) (by decide) cHigh mkE0
